import Mathlib

/-!
Shallow embedding of `src/main.rs` of the notion-bridge exporter.

The embedding translates the data model and the functions of `main.rs`:
rich-text flattening (`render_rich_text`), file-object resolution
(`render_file_object`), the recursive block renderer (`block_to_markdown`),
the cursor-driven child-fetch loop and page export (`process_page`), the
search-driven orchestrator (`main`'s loop), and the page-title cache
(`PageIdCache::get_page_title`).

Remote calls are modelled by explicit environments: a call sequence is a
list of `Except`-valued responses (one entry per remote call, consumed in
order), and the filesystem write is an `Except`-valued operation.  Panics
(`unwrap` / `expect`) are a distinct outcome (`PResult.panicked`) from
returned errors (`PResult.err`), since `if let Err` catches only the
latter.
-/

/-- A rich-text span; only its `plain_text()` projection is used by the code. -/
structure RichText where
  plain_text : String
deriving Repr, DecidableEq

/-- `render_rich_text`: concatenates the plain text of every span in order. -/
def render_rich_text (rich_text : List RichText) : String :=
  String.join (rich_text.map (fun text => text.plain_text))

/-- `FileObject`: a hosted (`File`) or externally linked (`External`) file. -/
inductive FileObject where
  | file (url : String)
  | external (url : String)
deriving Repr, DecidableEq

/-- `render_file_object`: projects the URL out of either variant. -/
def render_file_object : FileObject → String
  | .file url => url
  | .external url => url

/-- Rust's `char::to_lowercase` on the ASCII strings produced by the
`Debug` formatting of the code-language enum (`Char.toLower` lower-cases
exactly the ASCII uppercase range, as Rust does on ASCII). -/
def toLowercase (s : String) : String :=
  String.mk (s.data.map Char.toLower)

/-- Rust's `str::replace(pat: char, to: &str)`: every occurrence of the
character `c` is replaced by `r`. -/
def replaceChar (s : String) (c : Char) (r : String) : String :=
  String.join (s.data.map (fun ch => if ch = c then r else String.singleton ch))

/-- Splits a character list at every newline character (keeping empty
segments), the building block of Rust's `str::lines`. -/
def splitNewlines : List Char → List (List Char)
  | [] => [[]]
  | c :: rest =>
    if c = '\n' then [] :: splitNewlines rest
    else
      match splitNewlines rest with
      | [] => [[c]]
      | l :: ls => (c :: l) :: ls

/-- Rust's `str::lines`: split at `\n`, drop a final empty segment (a
trailing newline produces no extra line), and strip one trailing `\r`. -/
def rustLines (s : String) : List String :=
  let parts := splitNewlines s.data
  let parts := if parts.getLast? = some [] then parts.dropLast else parts
  parts.map (fun l => String.mk (if l.getLast? = some '\r' then l.dropLast else l))

/-- The block tree of the notion model, restricted to the fields `main.rs`
reads.  Container variants carry `Option (List Block)` children exactly
where the notion model has `Option<Vec<Block>>` (the code applies
`unwrap_or_default`), while `ColumnList` / `Column` carry a plain `Vec`.
`childPage` additionally carries `common.id`, the one field of `common`
the code reads. -/
inductive Block where
  | paragraph (rich_text : List RichText) (children : Option (List Block))
  | heading1 (rich_text : List RichText)
  | heading2 (rich_text : List RichText)
  | heading3 (rich_text : List RichText)
  | callout (rich_text : List RichText)
  | quote (rich_text : List RichText) (children : Option (List Block))
  | bulletedListItem (rich_text : List RichText) (children : Option (List Block))
  | numberedListItem (rich_text : List RichText) (children : Option (List Block))
  | toggle (rich_text : List RichText) (children : Option (List Block))
  | toDo (checked : Bool) (rich_text : List RichText) (children : Option (List Block))
  | code (rich_text : List RichText) (language : String)
  | childPage (id : String) (title : String)
  | childDatabase (title : String)
  | image (image : FileObject)
  | video (video : FileObject)
  | file (file : FileObject)
  | pdf (pdf : FileObject)
  | divider
  | embed (url : String)
  | bookmark (caption : List RichText) (url : String)
  | equation (expression : String)
  | tableOfContents
  | breadcrumb
  | columnList (children : List Block)
  | column (children : List Block)
  | linkPreview (url : String)
  | template (rich_text : List RichText)
  | linkToPage
  | table
  | syncedBlock
  | tableRow
  | unsupported
  | unknown
deriving Repr

mutual

/-- `block_to_markdown` specialised to the `String` buffer sink actually
passed by `process_page` (writes to a `String` cannot fail): the text the
call appends to the buffer.  Each branch concatenates, in program order,
exactly the strings the corresponding `write!` calls format. -/
def block_to_markdown : Block → String
  | .paragraph rich_text children =>
    render_rich_text rich_text ++ "\n" ++ opt_children_to_markdown children
  | .heading1 rich_text => "\n# " ++ render_rich_text rich_text ++ "\n\n"
  | .heading2 rich_text => "\n## " ++ render_rich_text rich_text ++ "\n\n"
  | .heading3 rich_text => "\n### " ++ render_rich_text rich_text ++ "\n\n"
  | .callout rich_text =>
    "> [!info]\n" ++
      String.join ((rustLines (render_rich_text rich_text)).map
        (fun line => "> " ++ line ++ "\n")) ++ "\n"
  | .quote rich_text children =>
    "> " ++ render_rich_text rich_text ++ "\n" ++
      "START QUOTE CHILDREN:\n" ++ opt_children_to_markdown children ++
      "END QUOTE CHILDREN:\n"
  | .bulletedListItem rich_text children =>
    "* " ++ render_rich_text rich_text ++ "\n" ++
      "START BULLET CHILDREN:\n" ++ opt_children_to_markdown children ++
      "END BULLET CHILDREN:\n"
  | .numberedListItem rich_text children =>
    "1. " ++ render_rich_text rich_text ++ "\n" ++
      "START NUMBERED CHILDREN:\n" ++ opt_children_to_markdown children ++
      "END NUMBERED CHILDREN:\n"
  | .toggle rich_text children =>
    "<details> <summary>" ++ render_rich_text rich_text ++ "</summary> \n" ++
      opt_children_to_markdown children ++ "</details>\n\n"
  | .toDo checked rich_text children =>
    "- [" ++ (if checked then "x" else "") ++ "] " ++
      render_rich_text rich_text ++ "\n" ++
      "START TODO CHILDREN:\n" ++ opt_children_to_markdown children ++
      "END TODO CHILDREN:\n"
  | .code rich_text language =>
    "\n```" ++ toLowercase language ++ "\n" ++ render_rich_text rich_text ++
      "\n```\n\n"
  | .childPage _ title => "Child page: [[" ++ title ++ "]]\n"
  | .childDatabase title => "Child database: " ++ title ++ "\n"
  | .image image => "![[" ++ render_file_object image ++ "]]\n"
  | .video video => "![[" ++ render_file_object video ++ "]]\n"
  | .file file => "![[" ++ render_file_object file ++ "]]\n"
  | .pdf pdf => "![[" ++ render_file_object pdf ++ "]]\n"
  | .divider => "----\n"
  | .embed url => "![[" ++ url ++ "]]\n"
  | .bookmark caption url =>
    "caption " ++ render_rich_text caption ++ " \n![[" ++ url ++ "]]\n"
  | .equation expression => "Equation " ++ expression ++ "\n"
  | .tableOfContents => "\nTABLE OF CONTENTS\n"
  | .breadcrumb => "\nBREADCRUMB\n"
  | .columnList children => column_children_to_markdown children
  | .column children => column_children_to_markdown children
  | .linkPreview url => "![[" ++ url ++ "]]\n"
  | .template rich_text => "\nTEMPLATE " ++ render_rich_text rich_text ++ "\n"
  | .linkToPage => "\nLINK TO PAGE\n"
  | .table => "\nTABLE\n"
  | .syncedBlock => "\nSYNCED BLOCK\n"
  | .tableRow => "\nTABLE ROW\n"
  | .unsupported => "\nUNSUPPORTED\n"
  | .unknown => "\nUNKNOWN\n"

/-- The `for child in children` loops: children rendered in order. -/
def blocks_to_markdown : List Block → String
  | [] => ""
  | b :: bs => block_to_markdown b ++ blocks_to_markdown bs

/-- `children.unwrap_or_default()` followed by the child loop. -/
def opt_children_to_markdown : Option (List Block) → String
  | some cs => blocks_to_markdown cs
  | none => ""

/-- The `ColumnList` / `Column` loop: each child is wrapped between a
`COLUMN LIST` and a `COLUMN LIST END` marker pair. -/
def column_children_to_markdown : List Block → String
  | [] => ""
  | c :: cs =>
    "COLUMN LIST\n\n" ++ block_to_markdown c ++ "COLUMN LIST END\n\n" ++
      column_children_to_markdown cs

end

example : block_to_markdown (.toDo true [⟨"done"⟩] none) =
    "- [x] done\nSTART TODO CHILDREN:\nEND TODO CHILDREN:\n" := by decide

example : block_to_markdown (.code [⟨"print(1)"⟩] "Python") =
    "\n```python\nprint(1)\n```\n\n" := by decide

/-- Modelled from the spec: `PageId::from_str` of the external notion
client, called (and its value discarded) in the `ChildPage` arm.  The spec
assigns no failure to child-page rendering — its only rendering failure is
a sink write failure — so the external parse is modelled as infallible. -/
def pageIdFromStr (s : String) : Except String String := .ok s

mutual

/-- `block_to_markdown` over an arbitrary formatting sink, as in the
source's `&mut dyn std::fmt::Write` signature: `w` is the sink's `write`
on sink state `σ`, each `write!` of the source is one `w` call with the
formatted string, and a failed write propagates with `?`. -/
def block_md_w {σ : Type} (w : σ → String → Except String σ) :
    Block → σ → Except String σ
  | .paragraph rich_text children, st => do
    let st ← w st (render_rich_text rich_text ++ "\n")
    opt_children_md_w w children st
  | .heading1 rich_text, st => w st ("\n# " ++ render_rich_text rich_text ++ "\n\n")
  | .heading2 rich_text, st => w st ("\n## " ++ render_rich_text rich_text ++ "\n\n")
  | .heading3 rich_text, st => w st ("\n### " ++ render_rich_text rich_text ++ "\n\n")
  | .callout rich_text, st =>
    w st ("> [!info]\n" ++
      String.join ((rustLines (render_rich_text rich_text)).map
        (fun line => "> " ++ line ++ "\n")) ++ "\n")
  | .quote rich_text children, st => do
    let st ← w st ("> " ++ render_rich_text rich_text ++ "\n")
    let st ← w st "START QUOTE CHILDREN:\n"
    let st ← opt_children_md_w w children st
    w st "END QUOTE CHILDREN:\n"
  | .bulletedListItem rich_text children, st => do
    let st ← w st ("* " ++ render_rich_text rich_text ++ "\n")
    let st ← w st "START BULLET CHILDREN:\n"
    let st ← opt_children_md_w w children st
    w st "END BULLET CHILDREN:\n"
  | .numberedListItem rich_text children, st => do
    let st ← w st ("1. " ++ render_rich_text rich_text ++ "\n")
    let st ← w st "START NUMBERED CHILDREN:\n"
    let st ← opt_children_md_w w children st
    w st "END NUMBERED CHILDREN:\n"
  | .toggle rich_text children, st => do
    let st ← w st ("<details> <summary>" ++ render_rich_text rich_text ++
      "</summary> \n")
    let st ← opt_children_md_w w children st
    w st "</details>\n\n"
  | .toDo checked rich_text children, st => do
    let st ← w st ("- [" ++ (if checked then "x" else "") ++ "] " ++
      render_rich_text rich_text ++ "\n")
    let st ← w st "START TODO CHILDREN:\n"
    let st ← opt_children_md_w w children st
    w st "END TODO CHILDREN:\n"
  | .code rich_text language, st =>
    w st ("\n```" ++ toLowercase language ++ "\n" ++ render_rich_text rich_text ++
      "\n```\n\n")
  | .childPage id title, st => do
    let _page_id ← pageIdFromStr id
    w st ("Child page: [[" ++ title ++ "]]\n")
  | .childDatabase title, st => w st ("Child database: " ++ title ++ "\n")
  | .image image, st => w st ("![[" ++ render_file_object image ++ "]]\n")
  | .video video, st => w st ("![[" ++ render_file_object video ++ "]]\n")
  | .file file, st => w st ("![[" ++ render_file_object file ++ "]]\n")
  | .pdf pdf, st => w st ("![[" ++ render_file_object pdf ++ "]]\n")
  | .divider, st => w st "----\n"
  | .embed url, st => w st ("![[" ++ url ++ "]]\n")
  | .bookmark caption url, st =>
    w st ("caption " ++ render_rich_text caption ++ " \n![[" ++ url ++ "]]\n")
  | .equation expression, st => w st ("Equation " ++ expression ++ "\n")
  | .tableOfContents, st => w st "\nTABLE OF CONTENTS\n"
  | .breadcrumb, st => w st "\nBREADCRUMB\n"
  | .columnList children, st => column_children_md_w w children st
  | .column children, st => column_children_md_w w children st
  | .linkPreview url, st => w st ("![[" ++ url ++ "]]\n")
  | .template rich_text, st =>
    w st ("\nTEMPLATE " ++ render_rich_text rich_text ++ "\n")
  | .linkToPage, st => w st "\nLINK TO PAGE\n"
  | .table, st => w st "\nTABLE\n"
  | .syncedBlock, st => w st "\nSYNCED BLOCK\n"
  | .tableRow, st => w st "\nTABLE ROW\n"
  | .unsupported, st => w st "\nUNSUPPORTED\n"
  | .unknown, st => w st "\nUNKNOWN\n"

/-- The `for child in ...` loops over the generic sink. -/
def blocks_md_w {σ : Type} (w : σ → String → Except String σ) :
    List Block → σ → Except String σ
  | [], st => .ok st
  | b :: bs, st => do
    let st ← block_md_w w b st
    blocks_md_w w bs st

/-- `children.unwrap_or_default()` followed by the child loop, generic sink. -/
def opt_children_md_w {σ : Type} (w : σ → String → Except String σ) :
    Option (List Block) → σ → Except String σ
  | some cs, st => blocks_md_w w cs st
  | none, st => .ok st

/-- The `ColumnList` / `Column` loop over the generic sink. -/
def column_children_md_w {σ : Type} (w : σ → String → Except String σ) :
    List Block → σ → Except String σ
  | [], st => .ok st
  | c :: cs, st => do
    let st ← w st "COLUMN LIST\n\n"
    let st ← block_md_w w c st
    let st ← w st "COLUMN LIST END\n\n"
    column_children_md_w w cs st

end

/-- One result batch of a cursor-paginated endpoint plus the optional
continuation cursor (`next_cursor`); a missing cursor means end-of-sequence. -/
structure ListResponse (α : Type) where
  results : List α
  next_cursor : Option String
deriving Repr

/-- Outcome of a modelled run fragment: a normal value, an error returned
with `?`, a panic (`unwrap` / `expect` — not catchable by `if let Err`),
or exhaustion of the finite list of modelled remote responses while a
continuation cursor was still present (`offModel`). -/
inductive PResult (α : Type) where
  | ok (a : α)
  | err (e : String)
  | panicked (msg : String)
  | offModel
deriving Repr

/-- Prefix already-printed log lines onto the outcome of the rest of a run. -/
def PResult.prependLog (log : List String) : PResult (List String) → PResult (List String)
  | .ok rest => .ok (log ++ rest)
  | .err e => .err e
  | .panicked m => .panicked m
  | .offModel => .offModel

/-- A fetched page object, restricted to the field the code reads:
`page.title()`, which is `None` when the page has no title property. -/
structure PageMeta where
  title : Option String
deriving Repr

/-- The remote client and the output sink, as deterministic environments.
Each `List (Except ...)` is the sequence of results of successive remote
calls for the given id: the head answers the first (cursorless) call, the
next entry answers the call made with the cursor returned before it. -/
structure Remote where
  get_page : String → Except String PageMeta
  get_block_children : String → List (Except String (ListResponse Block))
  create_write : String → String → Except String Unit

/-- The child-fetch `loop` in `process_page`: renders the current batch into
the buffer in order, then follows the continuation cursor through the
remaining call results; any remote-call error propagates.  Besides the
buffer, the `ok` value records the concatenated block sequence processed
and the number of remote responses consumed (one per `get_block_children`
call answered). -/
def children_loop : ListResponse Block → List (Except String (ListResponse Block)) → String →
    PResult (String × List Block × Nat)
  | children, [], buffer =>
    let buffer2 := buffer ++ blocks_to_markdown children.results
    match children.next_cursor with
    | none => .ok (buffer2, children.results, 1)
    | some _ => .offModel
  | children, nextResult :: rs, buffer =>
    let buffer2 := buffer ++ blocks_to_markdown children.results
    match children.next_cursor with
    | none => .ok (buffer2, children.results, 1)
    | some _ =>
      match nextResult with
      | Except.error e => .err e
      | Except.ok next =>
        match children_loop next rs buffer2 with
        | .ok (buf, blocks, n) => .ok (buf, children.results ++ blocks, n + 1)
        | .err e => .err e
        | .panicked m => .panicked m
        | .offModel => .offModel

/-- `process_page`: fetches the page (`get_page?`), requires its title
(`expect` — a panic, not an error), runs the child-fetch loop into a fresh
buffer, replaces `/` by `-` in the title, and writes the buffer to
`output/<title>.md`.  The `ok` value is the write performed:
`(path, contents)`. -/
def process_page (remote : Remote) (page_id : String) : PResult (String × String) :=
  match remote.get_page page_id with
  | .error e => .err e
  | .ok page =>
    match page.title with
    | none => .panicked "failed to get page title"
    | some page_title =>
      match remote.get_block_children page_id with
      | [] => .offModel
      | (Except.error e) :: _ => .err e
      | (Except.ok children) :: rest =>
        match children_loop children rest "" with
        | .ok (page_buffer, _, _) =>
          let page_title2 := replaceChar page_title '/' "-"
          let path := "output/" ++ page_title2 ++ ".md"
          match remote.create_write path page_buffer with
          | .error e => .err e
          | .ok _ => .ok (path, page_buffer)
        | .err e => .err e
        | .panicked m => .panicked m
        | .offModel => .offModel

/-- `notion_page_id_to_url`: strips dashes from the id. -/
def notion_page_id_to_url (id : String) : String :=
  "http://notion.so/" ++ replaceChar id '-' ""

/-- `notion_database_id_to_url`: strips dashes from the id. -/
def notion_database_id_to_url (id : String) : String :=
  "http://notion.so/" ++ replaceChar id '-' ""

/-- A search result object, restricted to the fields `main` reads. -/
inductive Object where
  | block
  | database (title : String) (id : String)
  | page (id : String) (title : Option String)
  | list
  | user
  | error
deriving Repr

/-- The per-object `match` in `main`'s search loop.  `ok` carries the lines
printed for the object.  A Page's missing title panics (`unwrap`); an `Err`
from `process_page` is caught by the `if let Err` and logged with the
title, and handling succeeds; a panic inside `process_page` propagates. -/
def handle_object (remote : Remote) : Object → PResult (List String)
  | .block => .ok ["Block"]
  | .database title id =>
    .ok ["Database: " ++ title ++ " " ++ notion_database_id_to_url id]
  | .page id title =>
    match title with
    | none => .panicked "called Option::unwrap on a None value"
    | some title =>
      let pageLine := "Page: " ++ title ++ " " ++ notion_page_id_to_url id
      match process_page remote id with
      | .ok _ => .ok [pageLine]
      | .err e => .ok [pageLine, "Failed for " ++ title ++ " with error " ++ e]
      | .panicked m => .panicked m
      | .offModel => .offModel
  | .list => .ok ["List"]
  | .user => .ok ["User"]
  | .error => .ok ["Error"]

/-- The `for object in search_result.results` loop body of `main`. -/
def run_objects (remote : Remote) : List Object → PResult (List String)
  | [] => .ok []
  | o :: os =>
    match handle_object remote o with
    | .ok log => PResult.prependLog log (run_objects remote os)
    | .err e => .err e
    | .panicked m => .panicked m
    | .offModel => .offModel

/-- The search pagination `loop` in `main`: handles the current batch of
objects, then follows the cursor through the remaining search-call
results; an error from a search call propagates (`?`) and aborts the run. -/
def search_loop (remote : Remote) :
    ListResponse Object → List (Except String (ListResponse Object)) → PResult (List String)
  | search_result, [] =>
    match run_objects remote search_result.results with
    | .ok log =>
      match search_result.next_cursor with
      | none => .ok log
      | some _ => .offModel
    | .err e => .err e
    | .panicked m => .panicked m
    | .offModel => .offModel
  | search_result, nextResult :: rs =>
    match run_objects remote search_result.results with
    | .ok log =>
      match search_result.next_cursor with
      | none => .ok log
      | some _ =>
        match nextResult with
        | Except.error e => .err e
        | Except.ok next => PResult.prependLog log (search_loop remote next rs)
    | .err e => .err e
    | .panicked m => .panicked m
    | .offModel => .offModel

/-- `main` after setup: the result of the first `search` call (`?`) followed
by the pagination loop.  `searchStream` lists the results of the successive
`search` calls. -/
def main_run (remote : Remote) :
    List (Except String (ListResponse Object)) → PResult (List String)
  | [] => .offModel
  | (Except.error e) :: _ => .err e
  | (Except.ok first) :: rest => search_loop remote first rest

/-- `PageIdCache`: page id → memoised title, as an association list. -/
structure PageIdCache where
  page_to_title : List (String × String)

/-- `PageIdCache::new`. -/
def PageIdCache.new : PageIdCache := ⟨[]⟩

/-- `HashMap::get` on the cache. -/
def PageIdCache.get (cache : PageIdCache) (id : String) : Option String :=
  (cache.page_to_title.find? (fun p => p.1 == id)).map (fun p => p.2)

/-- `HashMap::insert` on the cache. -/
def PageIdCache.insert (cache : PageIdCache) (id title : String) : PageIdCache :=
  ⟨(id, title) :: cache.page_to_title⟩

/-- `PageIdCache::get_page_title`, with the `&mut self` state passed
explicitly: returns the outcome, the cache after the call, and the number
of remote `get_page` calls issued by the call. -/
def get_page_title (cache : PageIdCache) (id : String)
    (client_get_page : String → Except String PageMeta) :
    Except String String × PageIdCache × Nat :=
  match cache.get id with
  | some title => (.ok title, cache, 0)
  | none =>
    match client_get_page id with
    | .error e => (.error e, cache, 1)
    | .ok page =>
      let title := page.title.getD "UNKNOWN_TITLE"
      (.ok title, cache.insert id title, 1)

/-- A finite, well-terminated cursor-paginated response sequence: every
response that is followed by another carries a continuation cursor, and the
final response carries none. -/
def cursorChain : ListResponse Block → List (ListResponse Block) → Prop
  | r, [] => r.next_cursor = none
  | r, r2 :: rs => r.next_cursor.isSome ∧ cursorChain r2 rs

/-- Remote environment of the C4 scenario: the page is titled `A/B` and its
children are a single paragraph block with rich text "hi"; the write
succeeds. -/
def c4Remote : Remote where
  get_page := fun _ => .ok ⟨some "A/B"⟩
  get_block_children := fun _ =>
    [Except.ok ⟨[Block.paragraph [⟨"hi"⟩] none], none⟩]
  create_write := fun _ _ => .ok ()

/-- Remote environment of the C1 witness: every per-page fetch fails, so
`process_page` returns an error for every page. -/
def c1Remote : Remote where
  get_page := fun _ => .error "boom"
  get_block_children := fun _ => []
  create_write := fun _ _ => .ok ()

/-- Remote environment of the C10 witness: `get_page` succeeds but the
fetched page has no title. -/
def c10Remote : Remote where
  get_page := fun _ => .ok ⟨none⟩
  get_block_children := fun _ => []
  create_write := fun _ _ => .ok ()

/- ------------------------------------------------------------------ -/
/- Theorems                                                            -/
/- ------------------------------------------------------------------ -/

theorem append_ne_empty_of_right {a b : String} (h : b ≠ "") : a ++ b ≠ "" := by
  intro he
  apply h
  have hl := congrArg String.length he
  rw [String.length_append] at hl
  have h0 : ("" : String).length = 0 := rfl
  rw [h0] at hl
  have hb : b.length = 0 := by omega
  exact String.ext (List.eq_nil_of_length_eq_zero hb)

theorem append_ne_empty_of_left {a b : String} (h : a ≠ "") : a ++ b ≠ "" := by
  intro he
  apply h
  have hl := congrArg String.length he
  rw [String.length_append] at hl
  have h0 : ("" : String).length = 0 := rfl
  rw [h0] at hl
  have ha : a.length = 0 := by omega
  exact String.ext (List.eq_nil_of_length_eq_zero ha)

theorem render_rich_text_cons (t : RichText) (ts : List RichText) :
    render_rich_text (t :: ts) = t.plain_text ++ render_rich_text ts := by
  apply String.ext
  simp [render_rich_text]

/-- C6: `render_rich_text` returns the plain-text concatenation of the spans
in sequence order with no separator and no styling markers: the empty
sequence yields the empty string, a singleton yields exactly its plain
text, the map is a homomorphism for sequence concatenation (hence
order-preserving, dropping and reordering nothing), and output length is
the sum of the span plain-text lengths (length-additive). -/
theorem C6_render_rich_spans (xs ys : List RichText) (s : RichText) :
    render_rich_text [] = ""
    ∧ render_rich_text [s] = s.plain_text
    ∧ render_rich_text (xs ++ ys) = render_rich_text xs ++ render_rich_text ys
    ∧ (render_rich_text xs).length = (xs.map (fun t => t.plain_text.length)).sum := by
  refine ⟨rfl, ?_, ?_, ?_⟩
  · rw [render_rich_text_cons]
    show s.plain_text ++ "" = s.plain_text
    exact String.append_empty _
  · apply String.ext
    simp [render_rich_text]
  · induction xs with
    | nil => rfl
    | cons t ts ih =>
      rw [render_rich_text_cons, String.length_append, List.map_cons, List.sum_cons, ih]

/-- C3: a To-Do block renders with its checkbox marker in the checked state
(`- [x] ` prefix) exactly when its `checked` flag is true, and the concrete
to-do block with `checked = true` and rich text "done" renders the line
`- [x] done` followed by its sentinel pair. -/
theorem C3_todo_checkbox (checked : Bool) (rt : List RichText) (ch : Option (List Block)) :
    ((∃ rest, block_to_markdown (Block.toDo checked rt ch) = "- [x] " ++ rest) ↔ checked = true)
    ∧ block_to_markdown (Block.toDo true [⟨"done"⟩] none) =
        "- [x] done\nSTART TODO CHILDREN:\nEND TODO CHILDREN:\n" := by
  constructor
  · constructor
    · rintro ⟨rest, h⟩
      cases checked with
      | true => rfl
      | false =>
        exfalso
        have hd := congrArg String.data h
        simp only [block_to_markdown] at hd
        simp [String.data_append] at hd
    · rintro rfl
      refine ⟨render_rich_text rt ++ ("\n" ++ ("START TODO CHILDREN:\n" ++
        (opt_children_to_markdown ch ++ "END TODO CHILDREN:\n"))), ?_⟩
      apply String.ext
      simp [block_to_markdown, String.data_append]
  · decide

/-- C5: a Code block renders as a fenced code block whose opening fence is
tagged with the declared language lower-cased and whose body is the
rendered rich text; concretely, language tag `Python` yields a fence line
tagged `python` (second line of the rendering). -/
theorem C5_code_fence (rt : List RichText) (lang : String) :
    block_to_markdown (Block.code rt lang) =
      "\n```" ++ toLowercase lang ++ "\n" ++ render_rich_text rt ++ "\n```\n\n"
    ∧ toLowercase "Python" = "python"
    ∧ rustLines (block_to_markdown (Block.code [⟨"print(1)"⟩] "Python")) =
        ["", "```python", "print(1)", "```", ""] := by
  refine ⟨rfl, by decide, by decide⟩

/-- C9: for Quote, BulletedListItem, NumberedListItem and To-Do blocks the
variant-specific START/END children sentinel lines are emitted
unconditionally: with an absent (`none`) or empty (`some []`) children
field the item renders its own line followed directly by the adjacent
sentinel pair. -/
theorem C9_sentinel_pairs (rt : List RichText) (checked : Bool) (ch : Option (List Block))
    (hch : ch = none ∨ ch = some []) :
    block_to_markdown (Block.quote rt ch) =
      "> " ++ render_rich_text rt ++ "\n" ++ "START QUOTE CHILDREN:\n" ++
        "END QUOTE CHILDREN:\n"
    ∧ block_to_markdown (Block.bulletedListItem rt ch) =
      "* " ++ render_rich_text rt ++ "\n" ++ "START BULLET CHILDREN:\n" ++
        "END BULLET CHILDREN:\n"
    ∧ block_to_markdown (Block.numberedListItem rt ch) =
      "1. " ++ render_rich_text rt ++ "\n" ++ "START NUMBERED CHILDREN:\n" ++
        "END NUMBERED CHILDREN:\n"
    ∧ block_to_markdown (Block.toDo checked rt ch) =
      "- [" ++ (if checked then "x" else "") ++ "] " ++ render_rich_text rt ++ "\n" ++
        "START TODO CHILDREN:\n" ++ "END TODO CHILDREN:\n" := by
  have hempty : opt_children_to_markdown ch = "" := by
    rcases hch with rfl | rfl <;> rfl
  refine ⟨?_, ?_, ?_, ?_⟩ <;> simp [block_to_markdown, hempty]

/-- C9 witness: a childless quote, bullet, numbered item and to-do each
render adjacent sentinel pairs after their own line. -/
theorem C9_sentinel_pairs_witness :
    block_to_markdown (Block.quote [(⟨"q"⟩ : RichText)] none) =
      "> " ++ render_rich_text [(⟨"q"⟩ : RichText)] ++ "\n" ++ "START QUOTE CHILDREN:\n" ++
        "END QUOTE CHILDREN:\n"
    ∧ block_to_markdown (Block.bulletedListItem [(⟨"q"⟩ : RichText)] none) =
      "* " ++ render_rich_text [(⟨"q"⟩ : RichText)] ++ "\n" ++ "START BULLET CHILDREN:\n" ++
        "END BULLET CHILDREN:\n"
    ∧ block_to_markdown (Block.numberedListItem [(⟨"q"⟩ : RichText)] none) =
      "1. " ++ render_rich_text [(⟨"q"⟩ : RichText)] ++ "\n" ++ "START NUMBERED CHILDREN:\n" ++
        "END NUMBERED CHILDREN:\n"
    ∧ block_to_markdown (Block.toDo true [(⟨"q"⟩ : RichText)] none) =
      "- [" ++ (if true then "x" else "") ++ "] " ++ render_rich_text [(⟨"q"⟩ : RichText)] ++
        "\n" ++ "START TODO CHILDREN:\n" ++ "END TODO CHILDREN:\n" :=
  C9_sentinel_pairs [(⟨"q"⟩ : RichText)] true none (Or.inl rfl)

theorem blocks_to_markdown_append (xs ys : List Block) :
    blocks_to_markdown (xs ++ ys) = blocks_to_markdown xs ++ blocks_to_markdown ys := by
  induction xs with
  | nil => simp [blocks_to_markdown]
  | cons b bs ih => simp [blocks_to_markdown, ih, String.append_assoc]

/-- C2: over any finite, well-terminated cursor chain of child batches, the
child-fetch loop renders exactly the concatenation of all returned batches
in server order into the buffer, processes exactly that concatenated block
sequence, stops at the first response without a continuation cursor, and
consumes one remote response per call: the call count is the number of
cursor hops (`rest.length`) plus one. -/
theorem C2_children_pagination (first : ListResponse Block) (rest : List (ListResponse Block))
    (buffer : String) (hwf : cursorChain first rest) :
    children_loop first (rest.map Except.ok) buffer =
      PResult.ok
        (buffer ++ blocks_to_markdown (first.results ++ (rest.map (fun r => r.results)).flatten),
         first.results ++ (rest.map (fun r => r.results)).flatten,
         rest.length + 1) := by
  revert hwf
  induction rest generalizing first buffer with
  | nil =>
    intro hwf
    simp only [cursorChain] at hwf
    simp [children_loop, hwf]
  | cons r rs ih =>
    intro hwf
    simp only [cursorChain] at hwf
    obtain ⟨hsome, hchain⟩ := hwf
    obtain ⟨c, hc⟩ := Option.isSome_iff_exists.mp hsome
    simp only [List.map_cons]
    rw [children_loop]
    simp only [hc]
    rw [ih r (buffer ++ blocks_to_markdown first.results) hchain]
    simp [blocks_to_markdown_append, String.append_assoc, List.append_assoc]

/-- C2 witness: two cursor-linked batches of one block each yield the
two-element concatenated sequence via exactly two remote calls. -/
theorem C2_children_pagination_witness :
    cursorChain ⟨[Block.divider], some "c1"⟩ [⟨[Block.breadcrumb], none⟩]
    ∧ children_loop ⟨[Block.divider], some "c1"⟩
        ([(⟨[Block.breadcrumb], none⟩ : ListResponse Block)].map Except.ok) "" =
      PResult.ok ("----\n\nBREADCRUMB\n", [Block.divider, Block.breadcrumb], 2) := by
  refine ⟨⟨rfl, rfl⟩, ?_⟩
  have h := C2_children_pagination ⟨[Block.divider], some "c1"⟩
    [⟨[Block.breadcrumb], none⟩] "" ⟨rfl, rfl⟩
  exact h

/-- C4: exporting a page titled `A/B` whose children are one paragraph block
with rich text "hi" writes the buffer `hi` + line break to the path
`output/A-B.md` (the path separator in the title replaced by a dash). -/
theorem C4_export_scenario :
    process_page c4Remote "page-1" = PResult.ok ("output/A-B.md", "hi\n") := rfl

/-- C7: the page-title cache returns a memoised title with zero remote
fetches on a hit; on a miss it issues exactly one fetch, returns the
fetched title with the sentinel `UNKNOWN_TITLE` substituted when the title
is absent, and stores that pair; on a failing fetch the error propagates
and the cache is left unchanged. -/
theorem C7_page_title_cache (cache1 cache2 cache3 : PageIdCache) (id t e : String)
    (page : PageMeta)
    (client1 client2 client3 : String → Except String PageMeta)
    (h1 : cache1.get id = some t)
    (h2 : cache2.get id = none) (hc2 : client2 id = Except.ok page)
    (h3 : cache3.get id = none) (hc3 : client3 id = Except.error e) :
    get_page_title cache1 id client1 = (Except.ok t, cache1, 0)
    ∧ get_page_title cache2 id client2 =
        (Except.ok (page.title.getD "UNKNOWN_TITLE"),
         cache2.insert id (page.title.getD "UNKNOWN_TITLE"), 1)
    ∧ get_page_title cache3 id client3 = (Except.error e, cache3, 1) := by
  refine ⟨?_, ?_, ?_⟩ <;> simp [get_page_title, h1, h2, h3, hc2, hc3]

/-- C7 witness: a hit on a cached id, a miss on a titleless page (sentinel
stored), and a failing fetch (error propagated, cache unchanged). -/
theorem C7_page_title_cache_witness :
    get_page_title ⟨[("p1", "T")]⟩ "p1" (fun _ => Except.error "ignored") =
      (Except.ok "T", ⟨[("p1", "T")]⟩, 0)
    ∧ get_page_title ⟨[]⟩ "p1" (fun _ => Except.ok ⟨none⟩) =
        (Except.ok "UNKNOWN_TITLE", PageIdCache.insert ⟨[]⟩ "p1" "UNKNOWN_TITLE", 1)
    ∧ get_page_title ⟨[]⟩ "p1" (fun _ => Except.error "boom") =
        (Except.error "boom", ⟨[]⟩, 1) :=
  C7_page_title_cache ⟨[("p1", "T")]⟩ ⟨[]⟩ ⟨[]⟩ "p1" "T" "boom" ⟨none⟩
    (fun _ => Except.error "ignored") (fun _ => Except.ok ⟨none⟩)
    (fun _ => Except.error "boom") rfl rfl rfl rfl rfl

/-- C10: a Page object with no title panics at the title extraction — both
at the search-result site (`unwrap`) and at the start of per-page
processing (`expect` on the freshly fetched page) — and the panic is not
routed through the per-page catch-and-continue path: it aborts the whole
run, with no sentinel title substituted. -/
theorem C10_missing_title_panics (remote : Remote) (id t : String) (os : List Object)
    (h : remote.get_page id = Except.ok ⟨none⟩) :
    handle_object remote (Object.page id none) =
      PResult.panicked "called Option::unwrap on a None value"
    ∧ process_page remote id = PResult.panicked "failed to get page title"
    ∧ handle_object remote (Object.page id (some t)) =
        PResult.panicked "failed to get page title"
    ∧ run_objects remote (Object.page id (some t) :: os) =
        PResult.panicked "failed to get page title" := by
  refine ⟨rfl, ?_, ?_, ?_⟩
  · simp [process_page, h]
  · simp [handle_object, process_page, h]
  · simp [run_objects, handle_object, process_page, h]

/-- C10 witness: the titleless-page panics at both sites under a remote
whose `get_page` returns a page without a title. -/
theorem C10_missing_title_panics_witness :
    handle_object c10Remote (Object.page "p" none) =
      PResult.panicked "called Option::unwrap on a None value"
    ∧ process_page c10Remote "p" = PResult.panicked "failed to get page title"
    ∧ handle_object c10Remote (Object.page "p" (some "T")) =
        PResult.panicked "failed to get page title"
    ∧ run_objects c10Remote [Object.page "p" (some "T")] =
        PResult.panicked "failed to get page title" :=
  C10_missing_title_panics c10Remote "p" "T" [] rfl

/-- C1: in the orchestrator, an error returned by `process_page` for a Page
search result is caught by the `if let Err`, logged with the page title,
and the loop continues with the remaining results; whereas an error
returned by a search-pagination call propagates with `?` and aborts the
whole run. -/
theorem C1_orchestrator_errors (remote : Remote) (id t e e2 : String) (os : List Object)
    (resp : ListResponse Object) (c : String)
    (rest : List (Except String (ListResponse Object))) (log : List String)
    (hfail : process_page remote id = PResult.err e)
    (hc : resp.next_cursor = some c)
    (hlog : run_objects remote resp.results = PResult.ok log) :
    handle_object remote (Object.page id (some t)) =
      PResult.ok ["Page: " ++ t ++ " " ++ notion_page_id_to_url id,
        "Failed for " ++ t ++ " with error " ++ e]
    ∧ run_objects remote (Object.page id (some t) :: os) =
        PResult.prependLog ["Page: " ++ t ++ " " ++ notion_page_id_to_url id,
          "Failed for " ++ t ++ " with error " ++ e] (run_objects remote os)
    ∧ search_loop remote resp (Except.error e2 :: rest) = PResult.err e2 := by
  refine ⟨?_, ?_, ?_⟩
  · simp [handle_object, hfail]
  · simp [run_objects, handle_object, hfail]
  · rw [search_loop]
    simp [hlog, hc]

/-- C1 witness: a failing page export is logged and the run result is the
continuation over the remaining (empty) results, while a failing search
pagination call yields the fatal error. -/
theorem C1_orchestrator_errors_witness :
    handle_object c1Remote (Object.page "p-1" (some "T")) =
      PResult.ok ["Page: T http://notion.so/p1", "Failed for T with error boom"]
    ∧ run_objects c1Remote [Object.page "p-1" (some "T")] =
        PResult.prependLog ["Page: T http://notion.so/p1", "Failed for T with error boom"]
          (run_objects c1Remote [])
    ∧ search_loop c1Remote ⟨[], some "c"⟩ [Except.error "E2"] = PResult.err "E2" :=
  C1_orchestrator_errors c1Remote "p-1" "T" "boom" "E2" [] ⟨[], some "c"⟩ "c" [] []
    rfl rfl rfl

theorem bindE_ok {α σ : Type} {m : Except String α} {k : α → Except String σ}
    (hm : ∃ a, m = Except.ok a) (hk : ∀ a, ∃ st2, k a = Except.ok st2) :
    ∃ st2, (m >>= k) = Except.ok st2 := by
  obtain ⟨a, ha⟩ := hm
  obtain ⟨st2, hst⟩ := hk a
  refine ⟨st2, ?_⟩
  rw [ha]
  exact hst

mutual

theorem block_md_w_total {σ : Type} (w : σ → String → Except String σ)
    (hw : ∀ st t, ∃ st2, w st t = Except.ok st2) :
    ∀ (b : Block) (st : σ), ∃ st2, block_md_w w b st = Except.ok st2
  | .paragraph _ ch, st => by
    simp only [block_md_w]
    exact bindE_ok (hw st _) (fun s1 => opt_children_md_w_total w hw ch s1)
  | .heading1 _, st => by simp only [block_md_w]; exact hw st _
  | .heading2 _, st => by simp only [block_md_w]; exact hw st _
  | .heading3 _, st => by simp only [block_md_w]; exact hw st _
  | .callout _, st => by simp only [block_md_w]; exact hw st _
  | .quote _ ch, st => by
    simp only [block_md_w]
    exact bindE_ok (hw st _) (fun s1 => bindE_ok (hw s1 _) (fun s2 =>
      bindE_ok (opt_children_md_w_total w hw ch s2) (fun s3 => hw s3 _)))
  | .bulletedListItem _ ch, st => by
    simp only [block_md_w]
    exact bindE_ok (hw st _) (fun s1 => bindE_ok (hw s1 _) (fun s2 =>
      bindE_ok (opt_children_md_w_total w hw ch s2) (fun s3 => hw s3 _)))
  | .numberedListItem _ ch, st => by
    simp only [block_md_w]
    exact bindE_ok (hw st _) (fun s1 => bindE_ok (hw s1 _) (fun s2 =>
      bindE_ok (opt_children_md_w_total w hw ch s2) (fun s3 => hw s3 _)))
  | .toggle _ ch, st => by
    simp only [block_md_w]
    exact bindE_ok (hw st _) (fun s1 =>
      bindE_ok (opt_children_md_w_total w hw ch s1) (fun s2 => hw s2 _))
  | .toDo _ _ ch, st => by
    simp only [block_md_w]
    exact bindE_ok (hw st _) (fun s1 => bindE_ok (hw s1 _) (fun s2 =>
      bindE_ok (opt_children_md_w_total w hw ch s2) (fun s3 => hw s3 _)))
  | .code _ _, st => by simp only [block_md_w]; exact hw st _
  | .childPage id _, st => by
    simp only [block_md_w]
    exact bindE_ok ⟨id, rfl⟩ (fun _ => hw st _)
  | .childDatabase _, st => by simp only [block_md_w]; exact hw st _
  | .image _, st => by simp only [block_md_w]; exact hw st _
  | .video _, st => by simp only [block_md_w]; exact hw st _
  | .file _, st => by simp only [block_md_w]; exact hw st _
  | .pdf _, st => by simp only [block_md_w]; exact hw st _
  | .divider, st => by simp only [block_md_w]; exact hw st _
  | .embed _, st => by simp only [block_md_w]; exact hw st _
  | .bookmark _ _, st => by simp only [block_md_w]; exact hw st _
  | .equation _, st => by simp only [block_md_w]; exact hw st _
  | .tableOfContents, st => by simp only [block_md_w]; exact hw st _
  | .breadcrumb, st => by simp only [block_md_w]; exact hw st _
  | .columnList cs, st => by
    simp only [block_md_w]
    exact column_children_md_w_total w hw cs st
  | .column cs, st => by
    simp only [block_md_w]
    exact column_children_md_w_total w hw cs st
  | .linkPreview _, st => by simp only [block_md_w]; exact hw st _
  | .template _, st => by simp only [block_md_w]; exact hw st _
  | .linkToPage, st => by simp only [block_md_w]; exact hw st _
  | .table, st => by simp only [block_md_w]; exact hw st _
  | .syncedBlock, st => by simp only [block_md_w]; exact hw st _
  | .tableRow, st => by simp only [block_md_w]; exact hw st _
  | .unsupported, st => by simp only [block_md_w]; exact hw st _
  | .unknown, st => by simp only [block_md_w]; exact hw st _

theorem blocks_md_w_total {σ : Type} (w : σ → String → Except String σ)
    (hw : ∀ st t, ∃ st2, w st t = Except.ok st2) :
    ∀ (bs : List Block) (st : σ), ∃ st2, blocks_md_w w bs st = Except.ok st2
  | [], st => ⟨st, by simp only [blocks_md_w]⟩
  | b :: bs, st => by
    simp only [blocks_md_w]
    exact bindE_ok (block_md_w_total w hw b st) (fun s1 => blocks_md_w_total w hw bs s1)

theorem opt_children_md_w_total {σ : Type} (w : σ → String → Except String σ)
    (hw : ∀ st t, ∃ st2, w st t = Except.ok st2) :
    ∀ (ch : Option (List Block)) (st : σ), ∃ st2, opt_children_md_w w ch st = Except.ok st2
  | some cs, st => by
    simp only [opt_children_md_w]
    exact blocks_md_w_total w hw cs st
  | none, st => ⟨st, by simp only [opt_children_md_w]⟩

theorem column_children_md_w_total {σ : Type} (w : σ → String → Except String σ)
    (hw : ∀ st t, ∃ st2, w st t = Except.ok st2) :
    ∀ (cs : List Block) (st : σ), ∃ st2, column_children_md_w w cs st = Except.ok st2
  | [], st => ⟨st, by simp only [column_children_md_w]⟩
  | c :: cs, st => by
    simp only [column_children_md_w]
    exact bindE_ok (hw st _) (fun s1 => bindE_ok (block_md_w_total w hw c s1) (fun s2 =>
      bindE_ok (hw s2 _) (fun s3 => column_children_md_w_total w hw cs s3)))

end

theorem block_to_markdown_eq_empty (b : Block) (h : block_to_markdown b = "") :
    b = Block.columnList [] ∨ b = Block.column [] := by
  cases b with
  | paragraph rt ch =>
    exact absurd h (by
      simp only [block_to_markdown]
      exact append_ne_empty_of_left (append_ne_empty_of_right (by decide)))
  | heading1 rt =>
    exact absurd h (by
      simp only [block_to_markdown]
      exact append_ne_empty_of_right (by decide))
  | heading2 rt =>
    exact absurd h (by
      simp only [block_to_markdown]
      exact append_ne_empty_of_right (by decide))
  | heading3 rt =>
    exact absurd h (by
      simp only [block_to_markdown]
      exact append_ne_empty_of_right (by decide))
  | callout rt =>
    exact absurd h (by
      simp only [block_to_markdown]
      exact append_ne_empty_of_right (by decide))
  | quote rt ch =>
    exact absurd h (by
      simp only [block_to_markdown]
      exact append_ne_empty_of_right (by decide))
  | bulletedListItem rt ch =>
    exact absurd h (by
      simp only [block_to_markdown]
      exact append_ne_empty_of_right (by decide))
  | numberedListItem rt ch =>
    exact absurd h (by
      simp only [block_to_markdown]
      exact append_ne_empty_of_right (by decide))
  | toggle rt ch =>
    exact absurd h (by
      simp only [block_to_markdown]
      exact append_ne_empty_of_right (by decide))
  | toDo checked rt ch =>
    exact absurd h (by
      simp only [block_to_markdown]
      exact append_ne_empty_of_right (by decide))
  | code rt lang =>
    exact absurd h (by
      simp only [block_to_markdown]
      exact append_ne_empty_of_right (by decide))
  | childPage id title =>
    exact absurd h (by
      simp only [block_to_markdown]
      exact append_ne_empty_of_right (by decide))
  | childDatabase title =>
    exact absurd h (by
      simp only [block_to_markdown]
      exact append_ne_empty_of_right (by decide))
  | image f =>
    exact absurd h (by
      simp only [block_to_markdown]
      exact append_ne_empty_of_right (by decide))
  | video f =>
    exact absurd h (by
      simp only [block_to_markdown]
      exact append_ne_empty_of_right (by decide))
  | file f =>
    exact absurd h (by
      simp only [block_to_markdown]
      exact append_ne_empty_of_right (by decide))
  | pdf f =>
    exact absurd h (by
      simp only [block_to_markdown]
      exact append_ne_empty_of_right (by decide))
  | divider => exact absurd h (by decide)
  | embed url =>
    exact absurd h (by
      simp only [block_to_markdown]
      exact append_ne_empty_of_right (by decide))
  | bookmark caption url =>
    exact absurd h (by
      simp only [block_to_markdown]
      exact append_ne_empty_of_right (by decide))
  | equation e =>
    exact absurd h (by
      simp only [block_to_markdown]
      exact append_ne_empty_of_right (by decide))
  | tableOfContents => exact absurd h (by decide)
  | breadcrumb => exact absurd h (by decide)
  | columnList children =>
    cases children with
    | nil => exact Or.inl rfl
    | cons c cs =>
      exact absurd h (by
        simp only [block_to_markdown, column_children_to_markdown]
        exact append_ne_empty_of_left (append_ne_empty_of_right (by decide)))
  | column children =>
    cases children with
    | nil => exact Or.inr rfl
    | cons c cs =>
      exact absurd h (by
        simp only [block_to_markdown, column_children_to_markdown]
        exact append_ne_empty_of_left (append_ne_empty_of_right (by decide)))
  | linkPreview url =>
    exact absurd h (by
      simp only [block_to_markdown]
      exact append_ne_empty_of_right (by decide))
  | template rt =>
    exact absurd h (by
      simp only [block_to_markdown]
      exact append_ne_empty_of_right (by decide))
  | linkToPage => exact absurd h (by decide)
  | table => exact absurd h (by decide)
  | syncedBlock => exact absurd h (by decide)
  | tableRow => exact absurd h (by decide)
  | unsupported => exact absurd h (by decide)
  | unknown => exact absurd h (by decide)

/-- C8 counterexample: a ColumnList block with an empty children list
renders the empty string — neither non-empty structured text nor a
placeholder label — so the claimed per-variant non-emptiness fails at this
concrete input (the Column variant behaves the same). -/
theorem C8_counterexample_empty_column_list :
    block_to_markdown (Block.columnList []) = "" := rfl

/-- C8 (amended): rendering never returns an error because of the block
variant shape: over any output sink whose writes all succeed,
`block_to_markdown` succeeds on every member of the Block variant set
(including Unsupported and Unknown), so the only failure path is a write
error from the sink; and every block renders non-empty structured text or
a defined placeholder label, except a ColumnList or Column block with an
empty children list, which renders the empty string. -/
theorem C8_render_totality {σ : Type} (w : σ → String → Except String σ)
    (hw : ∀ st t, ∃ st2, w st t = Except.ok st2) (b : Block) (st : σ) :
    (∃ st2, block_md_w w b st = Except.ok st2)
    ∧ (block_to_markdown b = "" → b = Block.columnList [] ∨ b = Block.column []) :=
  ⟨block_md_w_total w hw b st, block_to_markdown_eq_empty b⟩

/-- C8 witness: with the never-failing String-buffer sink (the one
`process_page` uses), rendering an Unknown block succeeds. -/
theorem C8_render_totality_witness :
    (∃ st2, block_md_w (fun st t => Except.ok (st ++ t)) Block.unknown "" = Except.ok st2)
    ∧ (block_to_markdown Block.unknown = "" →
        Block.unknown = Block.columnList [] ∨ Block.unknown = Block.column []) :=
  C8_render_totality (fun st t => Except.ok (st ++ t))
    (fun st t => ⟨st ++ t, rfl⟩) Block.unknown ""
